import Mathlib

set_option autoImplicit false
set_option linter.unnecessarySimpa false

deriving instance DecidableEq for Except

/-!
Shallow embedding of the acquisition-and-cache subsystem of the
US-Map-Census-Prediction repository (files `data_server/duck_writer.py`
and `data_server/acs_loader.py`), together with theorems settling the
claims about it.

Modelling conventions:
* Python dicts are association lists `List (String × α)` with unique keys
  maintained by the operations (`dictSet` mirrors `d[k] = v`, keeping the
  position of an existing key, appending a fresh one, exactly as CPython).
* The DuckDB `cache_kv` table is a bag of `(key, value)` rows,
  `List (String × α)`; `kv_set`'s delete-then-insert transaction is
  modelled statement by statement with an explicit failure point and a
  rollback to the snapshot taken at `BEGIN`.
* Network I/O is an oracle passed as an argument; functions return the
  number of network round-trips they performed so that "no network fetch"
  is a provable statement.
* JSON payloads stored in the cache are either a list of strings or a
  string-to-string mapping (`JVal`), the only two shapes the code stores;
  `json.dumps`/`json.loads` round-tripping is the identity on these.
-/

namespace DuckWriter

/-- A key/value table (the DuckDB `cache_kv` table): a bag of rows. -/
abbrev KVT (α : Type) : Type := List (String × α)

/-- `SELECT value FROM cache_kv WHERE key = ?` followed by `fetchone`:
first row whose key matches, if any (mirrors `kv_get`). -/
def kvLookup {α : Type} : KVT α → String → Option α
  | [], _ => none
  | p :: t, k => if p.1 = k then some p.2 else kvLookup t k

/-- `DELETE FROM cache_kv WHERE key = ?`. -/
def deleteKey {α : Type} (tbl : KVT α) (k : String) : KVT α :=
  tbl.filter (fun p => p.1 ≠ k)

/-- `INSERT INTO cache_kv(key, value) VALUES (?, ?)`. -/
def insertRow {α : Type} (tbl : KVT α) (k : String) (v : α) : KVT α :=
  tbl ++ [(k, v)]

/-- The successful effect of `kv_set`: delete any row for the key,
then insert the new value. -/
def kvSet {α : Type} (tbl : KVT α) (k : String) (v : α) : KVT α :=
  insertRow (deleteKey tbl k) k v

/-- Where the `kv_set` transaction fails, if anywhere: the code runs
`BEGIN; DELETE; INSERT; COMMIT` and on any exception runs `ROLLBACK`. -/
inductive TxnOutcome where
  | ok
  | failDelete
  | failInsert
  | failCommit
deriving DecidableEq, Repr

/-- `kv_set(key, value_json)`, statement by statement. The first component
is whether the transaction committed; the second is the table afterwards.
On any failure the `ROLLBACK` restores the snapshot taken at `BEGIN`
(and the exception is re-raised to the caller). -/
def kv_set {α : Type} (tbl : KVT α) (k : String) (v : α) (o : TxnOutcome) :
    Bool × KVT α :=
  let snapshot := tbl
  match o with
  | .failDelete => (false, snapshot)
  | .failInsert => (false, snapshot)
  | .failCommit => (false, snapshot)
  | .ok => (true, insertRow (deleteKey tbl k) k v)

theorem kvLookup_kvSet_self {α : Type} (tbl : KVT α) (k : String) (v : α) :
    kvLookup (kvSet tbl k v) k = some v := by
  unfold kvSet insertRow deleteKey
  induction tbl with
  | nil => simp [kvLookup]
  | cons p t ih =>
    rw [List.filter_cons]
    by_cases hp : p.1 = k
    · simpa [hp] using ih
    · simpa [kvLookup, hp] using ih

theorem kvLookup_kvSet_other {α : Type} (tbl : KVT α) (k k' : String) (v : α)
    (hne : k' ≠ k) : kvLookup (kvSet tbl k v) k' = kvLookup tbl k' := by
  unfold kvSet insertRow deleteKey
  induction tbl with
  | nil => simp [kvLookup, Ne.symm hne]
  | cons p t ih =>
    rw [List.filter_cons]
    by_cases hp : p.1 = k
    · simpa [kvLookup, hp, Ne.symm hne] using ih
    · by_cases hq : p.1 = k'
      · simp [kvLookup, hp, hq, hne]
      · simpa [kvLookup, hp, hq] using ih

theorem filter_deleteKey {α : Type} (tbl : KVT α) (k : String) :
    (deleteKey tbl k).filter (fun p => p.1 = k) = [] := by
  unfold deleteKey
  induction tbl with
  | nil => rfl
  | cons p t ih =>
    by_cases hp : p.1 = k
    · simp [List.filter_cons, hp]
    · simp [List.filter_cons, hp]

end DuckWriter

namespace AcsLoader

/-- `"-".join(groups)`. -/
def joinGroups (groups : List String) : String :=
  String.intercalate "-" groups

/-- `str(x)` applied to an optional string: Python renders `None` as
the text `"None"` inside an f-string. -/
def optStr (o : Option String) : String :=
  match o with
  | some s => s
  | none => "None"

/-- `_row_cache_key(year, geo_kind, groups, state_fips, county_fips=None)`
from `acs_loader.py`. -/
def _row_cache_key (year geo_kind : String) (groups : List String)
    (state_fips : String) (county_fips : Option String) : String :=
  let gtag := joinGroups groups
  if geo_kind = "state" then
    "row:" ++ year ++ ":state:" ++ state_fips ++ ":" ++ gtag
  else
    "row:" ++ year ++ ":county:" ++ state_fips ++ ":" ++ optStr county_fips
      ++ ":" ++ gtag

/-- What one attempt of `urllib.request.urlopen(url)` inside `_read_json`
raised, if it did not return JSON: an `HTTPError` with a status code, or a
low-level failure (`URLError` / `RemoteDisconnected`). -/
inductive FetchErr where
  | http (code : Nat)
  | conn
deriving DecidableEq, Repr

/-- Whether `_read_json` retries after this error: an `HTTPError` is
retried only when `e.code in (429, 500, 502, 503, 504)` (otherwise the
code raises it immediately); low-level failures are always retried. -/
def retryable : FetchErr → Bool
  | .http c => [429, 500, 502, 503, 504].contains c
  | .conn => true

/-- The network, as an oracle: what attempt number `i` observes. -/
abbrev NetTrace : Type := Nat → Except FetchErr String

def RETRY_MAX : Nat := 5

/-- The retry loop of `_read_json`, at attempt number `attempt` with `fuel`
further attempts allowed after this one. Returns the overall outcome and
the number of attempts performed from this point on. When the final
allowed attempt fails with a retryable error, the loop ends and the code
raises `last_err`, which is that very error. -/
def readJsonGo (net : NetTrace) : Nat → Nat → Except FetchErr String × Nat
  | 0, attempt =>
    match net attempt with
    | .ok j => (.ok j, 1)
    | .error e => (.error e, 1)
  | f + 1, attempt =>
    match net attempt with
    | .ok j => (.ok j, 1)
    | .error e =>
      if retryable e then
        let r := readJsonGo net f (attempt + 1)
        (r.1, r.2 + 1)
      else (.error e, 1)

/-- `_read_json(url)`: `for attempt in range(1, RETRY_MAX + 1)`, so the
attempts are numbered 1 .. 5. -/
def _read_json (net : NetTrace) : Except FetchErr String × Nat :=
  readJsonGo net (RETRY_MAX - 1) 1

theorem readJsonGo_attempts_le (net : NetTrace) :
    ∀ (fuel attempt : Nat), (readJsonGo net fuel attempt).2 ≤ fuel + 1 := by
  intro fuel
  induction fuel with
  | zero =>
    intro attempt
    unfold readJsonGo
    cases net attempt <;> simp
  | succ f ih =>
    intro attempt
    unfold readJsonGo
    cases net attempt with
    | ok j => simp
    | error e =>
      by_cases hr : retryable e = true
      · simpa [hr] using ih (attempt + 1)
      · simp [hr]

theorem readJsonGo_fatal (net : NetTrace) :
    ∀ (fuel attempt j : Nat) (e : FetchErr), attempt ≤ j → j ≤ attempt + fuel →
      (∀ i, attempt ≤ i → i < j →
        ∃ e', net i = .error e' ∧ retryable e' = true) →
      net j = .error e → retryable e = false →
      readJsonGo net fuel attempt = (.error e, j - attempt + 1) := by
  intro fuel
  induction fuel with
  | zero =>
    intro attempt j e hle hub _ hj hfatal
    have hja : j = attempt := Nat.le_antisymm (by simpa using hub) hle
    subst hja
    unfold readJsonGo
    simp [hj]
  | succ f ih =>
    intro attempt j e hle hub hretry hj hfatal
    by_cases hja : j = attempt
    · subst hja
      unfold readJsonGo
      simp [hj, hfatal]
    · have hlt : attempt < j := Nat.lt_of_le_of_ne hle (fun h => hja h.symm)
      obtain ⟨e', he', hre'⟩ := hretry attempt (Nat.le_refl _) hlt
      unfold readJsonGo
      rw [he']
      simp only [hre', if_true]
      have hrec := ih (attempt + 1) j e hlt (by omega)
        (fun i h1 h2 => hretry i (by omega) h2) hj hfatal
      rw [hrec]
      have : j - (attempt + 1) + 1 + 1 = j - attempt + 1 := by omega
      simp [this]

theorem readJsonGo_exhaust (net : NetTrace) :
    ∀ (fuel attempt : Nat),
      (∀ i, attempt ≤ i → i ≤ attempt + fuel →
        ∃ e', net i = .error e' ∧ retryable e' = true) →
      ∃ e, net (attempt + fuel) = .error e ∧
        readJsonGo net fuel attempt = (.error e, fuel + 1) := by
  intro fuel
  induction fuel with
  | zero =>
    intro attempt hretry
    obtain ⟨e, he, _⟩ := hretry attempt (Nat.le_refl _) (Nat.le_refl _)
    refine ⟨e, he, ?_⟩
    unfold readJsonGo
    rw [he]
  | succ f ih =>
    intro attempt hretry
    obtain ⟨e₀, he₀, hre₀⟩ := hretry attempt (Nat.le_refl _) (by omega)
    obtain ⟨e, he, hgo⟩ := ih (attempt + 1)
      (fun i h1 h2 => hretry i (by omega) (by omega))
    refine ⟨e, by rw [show attempt + (f + 1) = attempt + 1 + f by omega]; exact he, ?_⟩
    unfold readJsonGo
    rw [he₀]
    simp [hre₀, hgo]

end AcsLoader

/-- C7 counterexample: the code joins the groups in caller order without
sorting, so two lists with the same groups in different orders yield
different cache keys. -/
theorem row_cache_key_order_sensitive :
    AcsLoader._row_cache_key "2023" "state" ["DP02", "DP03"] "06" none ≠
      AcsLoader._row_cache_key "2023" "state" ["DP03", "DP02"] "06" none := by
  decide

/-- C7 (amended): the cache key is a deterministic function of
(vintage, geo_kind, state[, county]) and the group tag obtained by joining
the groups in the order given (not sorted): any two group lists with the
same join produce the same key. -/
theorem row_cache_key_deterministic (year geo_kind state_fips : String)
    (county_fips : Option String) (groups₁ groups₂ : List String)
    (h : AcsLoader.joinGroups groups₁ = AcsLoader.joinGroups groups₂) :
    AcsLoader._row_cache_key year geo_kind groups₁ state_fips county_fips =
      AcsLoader._row_cache_key year geo_kind groups₂ state_fips county_fips := by
  unfold AcsLoader._row_cache_key
  rw [h]

/-- C7 witness: two distinct lists with the same join get the same key. -/
theorem row_cache_key_deterministic_witness :
    AcsLoader.joinGroups ["DP02-DP03"] = AcsLoader.joinGroups ["DP02", "DP03"] ∧
      AcsLoader._row_cache_key "2023" "state" ["DP02-DP03"] "06" none =
        AcsLoader._row_cache_key "2023" "state" ["DP02", "DP03"] "06" none :=
  ⟨by decide,
    row_cache_key_deterministic "2023" "state" "06" none ["DP02-DP03"]
      ["DP02", "DP03"] (by decide)⟩

/-- C2: after `kv_set(k, v1)` and `kv_set(k, v2)` both commit, the cache
table holds exactly one row for `k`, whose value is `v2`; and a `kv_set`
whose transaction fails at any statement leaves the table exactly as it
was (full rollback, no partial write observable). -/
theorem kv_set_upsert_exclusive (tbl : DuckWriter.KVT String)
    (k v₁ v₂ : String) :
    (((DuckWriter.kv_set
          (DuckWriter.kv_set tbl k v₁ .ok).2 k v₂ .ok).2).filter
        (fun p => p.1 = k) = [(k, v₂)]) ∧
      (∀ (v : String) (o : DuckWriter.TxnOutcome), o ≠ .ok →
        DuckWriter.kv_set tbl k v o = (false, tbl)) := by
  constructor
  · show ((DuckWriter.insertRow
        (DuckWriter.deleteKey
          (DuckWriter.insertRow (DuckWriter.deleteKey tbl k) k v₁) k) k
        v₂).filter (fun p => p.1 = k)) = [(k, v₂)]
    unfold DuckWriter.insertRow
    rw [List.filter_append, DuckWriter.filter_deleteKey]
    simp [List.filter]
  · intro v o ho
    cases o with
    | ok => exact absurd rfl ho
    | failDelete => rfl
    | failInsert => rfl
    | failCommit => rfl

/-- C2 witness at a concrete table, key and values. -/
theorem kv_set_upsert_exclusive_witness :
    (((DuckWriter.kv_set
          (DuckWriter.kv_set [("a", "z")] "k" "v1" .ok).2 "k" "v2" .ok).2).filter
        (fun p => p.1 = "k") = [("k", "v2")]) ∧
      (∀ (v : String) (o : DuckWriter.TxnOutcome), o ≠ .ok →
        DuckWriter.kv_set [("a", "z")] "k" v o = (false, [("a", "z")])) :=
  kv_set_upsert_exclusive [("a", "z")] "k" "v1" "v2"

/-- C5: `_read_json` makes at most 5 attempts; an HTTP error whose status
is not in 429/500/502/503/504 (e.g. 404) observed at attempt j — after
only retryable failures — is raised at attempt j with no further retry;
and if all 5 attempts fail with retryable errors the last observed error
(attempt 5's) is raised to the caller. -/
theorem read_json_retry_policy (net : AcsLoader.NetTrace) :
    ((AcsLoader._read_json net).2 ≤ 5) ∧
      (∀ (j : Nat) (e : AcsLoader.FetchErr), 1 ≤ j → j ≤ 5 →
        (∀ i, 1 ≤ i → i < j →
          ∃ e', net i = .error e' ∧ AcsLoader.retryable e' = true) →
        net j = .error e → AcsLoader.retryable e = false →
        AcsLoader._read_json net = (.error e, j)) ∧
      ((∀ i, 1 ≤ i → i ≤ 5 →
          ∃ e', net i = .error e' ∧ AcsLoader.retryable e' = true) →
        ∃ e, net 5 = .error e ∧
          AcsLoader._read_json net = (.error e, 5)) := by
  refine ⟨?_, ?_, ?_⟩
  · exact AcsLoader.readJsonGo_attempts_le net 4 1
  · intro j e h1 h5 hretry hj hfatal
    have h := AcsLoader.readJsonGo_fatal net 4 1 j e h1 (by omega) hretry hj hfatal
    have hj' : j - 1 + 1 = j := by omega
    rw [hj'] at h
    exact h
  · intro hretry
    have h := AcsLoader.readJsonGo_exhaust net 4 1 (fun i hi1 hi5 => hretry i hi1 (by omega))
    exact h

/-- C5 witness: an endpoint answering 503 forever causes exactly 5
attempts and then raises 503; an endpoint answering 404 raises on the
first attempt. -/
theorem read_json_retry_policy_witness :
    (∃ e, (fun _ : Nat =>
        (Except.error (AcsLoader.FetchErr.http 503) :
          Except AcsLoader.FetchErr String)) 5 = .error e ∧
      AcsLoader._read_json (fun _ => .error (.http 503)) = (.error e, 5)) ∧
      AcsLoader._read_json (fun _ => .error (.http 404)) =
        (.error (.http 404), 1) := by
  constructor
  · exact (read_json_retry_policy (fun _ => .error (.http 503))).2.2
      (fun i _ _ => ⟨.http 503, rfl, by decide⟩)
  · exact (read_json_retry_policy (fun _ => .error (.http 404))).2.1 1
      (.http 404) (by decide) (by decide) (fun i h1 h2 => absurd h2 (by omega))
      rfl (by decide)

namespace DuckWriter

/-- A value held in a row dict: the fetched census values are strings,
`row["year"] = int(year)` is an integer. -/
inductive Val where
  | str (s : String)
  | int (n : Int)
deriving DecidableEq, Repr

/-- `str(value)`: how the value renders inside an f-string. -/
def valStr : Val → String
  | .str s => s
  | .int n => toString n

/-- A row dict: association list with the keys in insertion order. -/
abbrev RowDict : Type := List (String × Val)

/-- `d[k] = v` on a Python dict: overwrite in place if the key exists
(keeping its position), append otherwise. -/
def dictSet (d : RowDict) (k : String) (v : Val) : RowDict :=
  if d.any (fun p => p.1 = k) then
    d.map (fun p => if p.1 = k then (k, v) else p)
  else
    d ++ [(k, v)]

/-- `d.get(k)`: the value stored under the key, if any (dict keys are
unique, so the first match is the only one). -/
def dictGet : RowDict → String → Option Val
  | [], _ => none
  | p :: t, k => if p.1 = k then some p.2 else dictGet t k

/-- `geo_level.lower()`: core `String.toLower`, restated on the character
list (`String.map` is defined by well-founded recursion and does not
evaluate inside proofs). -/
def strLower (s : String) : String :=
  String.mk (s.data.map Char.toLower)

/-- `str(s).zfill(w)`: left-pad with zeros to width `w`, keeping a
leading sign in front of the padding. -/
def zfill (s : String) (width : Nat) : String :=
  if width ≤ s.length then s
  else
    match s.data with
    | c :: cs =>
      if c = '+' ∨ c = '-' then
        String.mk (c :: (List.replicate (width - s.length) '0' ++ cs))
      else
        String.mk (List.replicate (width - s.length) '0' ++ s.data)
    | [] => String.mk (List.replicate width '0')

/-- One physical wide table: its column set (in creation order) and its
rows. A stored row is the dict that was inserted; a column the dict does
not mention holds SQL NULL for that row, which is exactly a failed lookup. -/
structure Table where
  cols : List String
  rows : List RowDict
deriving DecidableEq, Repr

/-- The five columns of the `CREATE TABLE IF NOT EXISTS` statement. -/
def coreCols : List String :=
  ["geo_level", "year", "state", "county", "NAME"]

/-- A table that did not exist yet, right after `CREATE TABLE`. -/
def emptyTable : Table :=
  Table.mk coreCols []

/-- What `ALTER TABLE ... ADD COLUMN` does for a given column name:
succeeds, or raises an error with a message (e.g. a concurrent writer
already added the column). -/
inductive AlterRes where
  | ok
  | err (msg : String)
deriving DecidableEq, Repr

/-- Substring test on the character lists (`"already exists" in str(e)`). -/
def charsContain : List Char → List Char → Bool
  | l, pat =>
    if pat.isPrefixOf l then true
    else
      match l with
      | [] => false
      | _ :: t => charsContain t pat

/-- `needle in haystack` on Python strings. -/
def strContains (haystack needle : String) : Bool :=
  charsContain haystack.data needle.data

/-- The column loop of `_ensure_table`: for each key of the row, skip the
five core columns and columns already present; otherwise `ALTER TABLE ADD
COLUMN`, treating an error whose message contains "already exists" as
success (the column was added concurrently) and re-raising anything else. -/
def ensureCols (alter : String → AlterRes) (existing : List String) :
    List String → Except String (List String)
  | [] => .ok existing
  | col :: rest =>
    if col ∈ coreCols then ensureCols alter existing rest
    else if col ∈ existing then ensureCols alter existing rest
    else
      match alter col with
      | .ok => ensureCols alter (existing ++ [col]) rest
      | .err msg =>
        if strContains msg "already exists" then
          ensureCols alter (existing ++ [col]) rest
        else
          .error msg

/-- `_ensure_table(con, table, columns)`: create the table if it does not
exist, then add the missing columns of the row. Rows are never touched. -/
def _ensure_table (tbl : Option Table) (columns : List String)
    (alter : String → AlterRes) : Except String Table :=
  let t := tbl.getD emptyTable
  (ensureCols alter t.cols columns).map (fun cs => Table.mk cs t.rows)

end DuckWriter

namespace DuckWriter

def STATE_TABLE_NAME : String := "acs5_state_profile"

def COUNTY_TABLE_NAME : String := "acs5_county_profile"

/-- The keys of a row dict, in order. -/
def keys (d : RowDict) : List String :=
  d.map (fun p => p.1)

/-- The identifier-overwriting block of `write_row_and_get_query`
(`geo_level` already lowercased by the caller):
`row["geo_level"] = geo_level; row["year"] = int(year);`
`if state_fips is not None: row["state"] = str(state_fips).zfill(2);`
`if county_fips is not None: row["county"] = str(county_fips).zfill(3)`. -/
def normalizeRow (row : RowDict) (year : Int) (gl : String)
    (state_fips county_fips : Option String) : RowDict :=
  let row1 := dictSet row "geo_level" (.str gl)
  let row2 := dictSet row1 "year" (.int year)
  let row3 := match state_fips with
    | some s => dictSet row2 "state" (.str (zfill s 2))
    | none => row2
  match county_fips with
  | some c => dictSet row3 "county" (.str (zfill c 3))
  | none => row3

/-- Which table the row goes to: state rows to the shared state table,
county rows to the per-state county table (requiring a truthy
`state_fips`), anything else is a `ValueError`. -/
def tableFor (gl : String) (state_fips : Option String) :
    Except String String :=
  if gl = "state" then .ok STATE_TABLE_NAME
  else if gl = "county" then
    if state_fips = none ∨ state_fips = some "" then
      .error "state_fips is required when geo_level='county'"
    else .ok COUNTY_TABLE_NAME
  else .error ("Unsupported geo_level='" ++ gl ++ "'")

/-- Step (3) of `write_row_and_get_query`: the SELECT that would fetch the
row back, pinning `geo_level`, `year`, and whichever of `state`/`county`
the normalized row carries, with the very values that were written. -/
def mkSelect (table gl : String) (year : Int) (row : RowDict) : String :=
  let whereParts :=
    ["geo_level = '" ++ gl ++ "'", "year = " ++ toString year]
      ++ (match dictGet row "state" with
          | some v => ["state = '" ++ valStr v ++ "'"]
          | none => [])
      ++ (match dictGet row "county" with
          | some v => ["county = '" ++ valStr v ++ "'"]
          | none => [])
  "SELECT * FROM " ++ table ++ " WHERE "
    ++ String.intercalate " AND " whereParts ++ ";"

/-- `write_row_and_get_query(row, year, geo_level, state_fips,
county_fips)`: lowercase the geo level, overwrite the identifier fields,
pick the target table, ensure the table and its columns exist, insert the
row, and return the SELECT that retrieves it. The table state is passed
and returned explicitly (`none` = the table does not exist yet). -/
def write_row_and_get_query (row : RowDict) (year : Int) (geo_level : String)
    (state_fips county_fips : Option String) (tbl : Option Table)
    (alter : String → AlterRes) : Except String (String × Table) :=
  let gl := (strLower geo_level)
  let row4 := normalizeRow row year gl state_fips county_fips
  match tableFor gl state_fips with
  | .error e => .error e
  | .ok table =>
    match _ensure_table tbl (keys row4) alter with
    | .error e => .error e
    | .ok t => .ok (mkSelect table gl year row4, Table.mk t.cols (t.rows ++ [row4]))

end DuckWriter

namespace DuckWriter

theorem dictGet_map_set_other {d : RowDict} {k k' : String} {v : Val}
    (h : k' ≠ k) :
    dictGet (d.map (fun p => if p.1 = k then (k, v) else p)) k' =
      dictGet d k' := by
  induction d with
  | nil => rfl
  | cons p t ih =>
    by_cases hp : p.1 = k
    · simp [dictGet, hp, Ne.symm h, ih]
    · by_cases hq : p.1 = k'
      · simp [dictGet, hp, hq, h]
      · simp [dictGet, hp, hq, ih]

theorem dictGet_append_single_other {d : RowDict} {k k' : String} {v : Val}
    (h : k' ≠ k) :
    dictGet (d ++ [(k, v)]) k' = dictGet d k' := by
  induction d with
  | nil => simp [dictGet, Ne.symm h]
  | cons p t ih =>
    by_cases hp : p.1 = k'
    · simp [dictGet, hp]
    · simp [dictGet, hp, ih]

theorem dictGet_dictSet_other {d : RowDict} {k k' : String} {v : Val}
    (h : k' ≠ k) :
    dictGet (dictSet d k v) k' = dictGet d k' := by
  unfold dictSet
  by_cases ha : d.any (fun p => p.1 = k) = true
  · simp only [ha, if_true]
    exact dictGet_map_set_other h
  · simp only [ha, if_false]
    exact dictGet_append_single_other h

theorem dictGet_dictSet_self (d : RowDict) (k : String) (v : Val) :
    dictGet (dictSet d k v) k = some v := by
  unfold dictSet
  by_cases ha : d.any (fun p => p.1 = k) = true
  · simp only [ha, if_true]
    induction d with
    | nil => simp at ha
    | cons p t ih =>
      by_cases hp : p.1 = k
      · simp [dictGet, hp]
      · have ht : t.any (fun p => p.1 = k) = true := by
          simp only [List.any_cons, hp] at ha
          simpa using ha
        simp [dictGet, hp, ih ht]
  · simp only [ha, if_false]
    induction d with
    | nil => simp [dictGet]
    | cons p t ih =>
      have hp : ¬(p.1 = k) := by
        intro hpk
        exact ha (by simp [List.any_cons, hpk])
      have ht : ¬(t.any (fun p => p.1 = k) = true) := by
        intro hany
        exact ha (by simp [List.any_cons, hany])
      simpa [dictGet, hp] using ih ht

theorem dictGet_none_of_not_mem_keys (d : RowDict) (k : String)
    (h : k ∉ keys d) : dictGet d k = none := by
  induction d with
  | nil => rfl
  | cons p t ih =>
    have h1 : ¬(p.1 = k) := by
      intro hh
      exact h (by simp [keys, hh])
    have h2 : k ∉ keys t := by
      intro hh
      apply h
      simp only [keys, List.map_cons, List.mem_cons]
      exact Or.inr (by simpa [keys] using hh)
    simp [dictGet, h1, ih h2]

theorem mem_keys_dictSet_of_mem {d : RowDict} {k c : String} (v : Val)
    (hc : c ∈ keys d) : c ∈ keys (dictSet d k v) := by
  unfold dictSet
  by_cases ha : d.any (fun p => p.1 = k) = true
  · simp only [ha, if_true, keys, List.map_map]
    simp only [keys, List.mem_map] at hc
    obtain ⟨p, hp, hpc⟩ := hc
    by_cases hpk : p.1 = k
    · refine List.mem_map.mpr ⟨p, hp, ?_⟩
      simp only [Function.comp]
      rw [if_pos hpk, ← hpk]
      exact hpc
    · refine List.mem_map.mpr ⟨p, hp, ?_⟩
      simp only [Function.comp]
      rw [if_neg hpk]
      exact hpc
  · have ha0 : d.any (fun p => p.1 = k) = false := by
      cases hny : d.any (fun p => p.1 = k) with
      | false => rfl
      | true => exact absurd hny ha
    simp only [ha0, Bool.false_eq_true, if_false, keys, List.map_append,
      List.mem_append]
    exact Or.inl hc

theorem mem_keys_normalizeRow_of_mem (row : RowDict) (year : Int)
    (gl : String) (s c : Option String) (col : String)
    (hcol : col ∈ keys row) :
    col ∈ keys (normalizeRow row year gl s c) := by
  unfold normalizeRow
  cases s with
  | none =>
    cases c with
    | none =>
      exact mem_keys_dictSet_of_mem _ (mem_keys_dictSet_of_mem _ hcol)
    | some cv =>
      exact mem_keys_dictSet_of_mem _ (mem_keys_dictSet_of_mem _
        (mem_keys_dictSet_of_mem _ hcol))
  | some sv =>
    cases c with
    | none =>
      exact mem_keys_dictSet_of_mem _ (mem_keys_dictSet_of_mem _
        (mem_keys_dictSet_of_mem _ hcol))
    | some cv =>
      exact mem_keys_dictSet_of_mem _ (mem_keys_dictSet_of_mem _
        (mem_keys_dictSet_of_mem _ (mem_keys_dictSet_of_mem _ hcol)))

theorem dictGet_normalizeRow_untouched (row : RowDict) (year : Int)
    (gl : String) (s c : Option String) (Y : String)
    (h1 : Y ≠ "geo_level") (h2 : Y ≠ "year") (h3 : Y ≠ "state")
    (h4 : Y ≠ "county") :
    dictGet (normalizeRow row year gl s c) Y = dictGet row Y := by
  unfold normalizeRow
  cases s <;> cases c <;>
    simp [dictGet_dictSet_other h1, dictGet_dictSet_other h2,
      dictGet_dictSet_other h3, dictGet_dictSet_other h4]

theorem ensureCols_grows (alter : String → AlterRes) :
    ∀ (newCols existing cs : List String),
      ensureCols alter existing newCols = .ok cs → existing <+: cs := by
  intro newCols
  induction newCols with
  | nil =>
    intro existing cs h
    unfold ensureCols at h
    injection h with h'
    exact h' ▸ List.prefix_refl existing
  | cons col rest ih =>
    intro existing cs h
    unfold ensureCols at h
    by_cases h1 : col ∈ coreCols
    · rw [if_pos h1] at h
      exact ih existing cs h
    · rw [if_neg h1] at h
      by_cases h2 : col ∈ existing
      · rw [if_pos h2] at h
        exact ih existing cs h
      · rw [if_neg h2] at h
        cases halter : alter col with
        | ok =>
          rw [halter] at h
          exact (List.prefix_append existing [col]).trans (ih _ cs h)
        | err msg =>
          rw [halter] at h
          by_cases h3 : strContains msg "already exists" = true
          · have h' : ensureCols alter (existing ++ [col]) rest = .ok cs := by
              simpa [h3] using h
            exact (List.prefix_append existing [col]).trans (ih _ cs h')
          · have h' : (Except.error msg :
                Except String (List String)) = .ok cs := by
              simpa [h3] using h
            cases h'

theorem ensureCols_mem (alter : String → AlterRes) :
    ∀ (newCols existing cs : List String),
      ensureCols alter existing newCols = .ok cs →
      ∀ col ∈ newCols, col ∈ coreCols ∨ col ∈ cs := by
  intro newCols
  induction newCols with
  | nil =>
    intro existing cs _ col hcol
    cases hcol
  | cons col0 rest ih =>
    intro existing cs h col hcol
    unfold ensureCols at h
    by_cases h1 : col0 ∈ coreCols
    · rw [if_pos h1] at h
      rcases List.mem_cons.mp hcol with hc | hc
      · exact Or.inl (hc ▸ h1)
      · exact ih existing cs h col hc
    · rw [if_neg h1] at h
      by_cases h2 : col0 ∈ existing
      · rw [if_pos h2] at h
        rcases List.mem_cons.mp hcol with hc | hc
        · exact Or.inr ((ensureCols_grows alter rest existing cs h).subset
            (hc ▸ h2))
        · exact ih existing cs h col hc
      · rw [if_neg h2] at h
        cases halter : alter col0 with
        | ok =>
          rw [halter] at h
          rcases List.mem_cons.mp hcol with hc | hc
          · exact Or.inr ((ensureCols_grows alter rest _ cs h).subset
              (by simp [hc]))
          · exact ih _ cs h col hc
        | err msg =>
          rw [halter] at h
          by_cases h3 : strContains msg "already exists" = true
          · have h' : ensureCols alter (existing ++ [col0]) rest = .ok cs := by
              simpa [h3] using h
            rcases List.mem_cons.mp hcol with hc | hc
            · exact Or.inr ((ensureCols_grows alter rest _ cs h').subset
                (by simp [hc]))
            · exact ih _ cs h' col hc
          · have h' : (Except.error msg :
                Except String (List String)) = .ok cs := by
              simpa [h3] using h
            cases h'

theorem ensure_table_inv (tbl : Option Table) (cols : List String)
    (alter : String → AlterRes) (t : Table)
    (h : _ensure_table tbl cols alter = .ok t) :
    ensureCols alter (tbl.getD emptyTable).cols cols = .ok t.cols ∧
      t.rows = (tbl.getD emptyTable).rows := by
  have h2 : Except.map (fun cs => Table.mk cs (tbl.getD emptyTable).rows)
      (ensureCols alter (tbl.getD emptyTable).cols cols) = .ok t := h
  cases hc : ensureCols alter (tbl.getD emptyTable).cols cols with
  | error e =>
    rw [hc] at h2
    simp [Except.map] at h2
  | ok cs =>
    rw [hc] at h2
    simp only [Except.map] at h2
    injection h2 with h'
    constructor
    · rw [← h']
    · rw [← h']

theorem write_ok_inv (row : RowDict) (year : Int) (geo_level : String)
    (s c : Option String) (tbl : Option Table) (alter : String → AlterRes)
    (sql : String) (t' : Table)
    (h : write_row_and_get_query row year geo_level s c tbl alter =
      .ok (sql, t')) :
    ∃ tname tc,
      tableFor (strLower geo_level) s = .ok tname ∧
      _ensure_table tbl (keys (normalizeRow row year (strLower geo_level) s c))
        alter = .ok tc ∧
      sql = mkSelect tname (strLower geo_level) year
        (normalizeRow row year (strLower geo_level) s c) ∧
      t' = Table.mk tc.cols
        (tc.rows ++ [normalizeRow row year (strLower geo_level) s c]) := by
  simp only [write_row_and_get_query] at h
  cases htf : tableFor (strLower geo_level) s with
  | error e =>
    rw [htf] at h
    cases h
  | ok tname =>
    rw [htf] at h
    cases hens : _ensure_table tbl
        (keys (normalizeRow row year (strLower geo_level) s c)) alter with
    | error e =>
      rw [hens] at h
      cases h
    | ok tc =>
      rw [hens] at h
      injection h with h'
      obtain ⟨hsql, ht⟩ := Prod.mk.inj h'
      exact ⟨tname, tc, rfl, rfl, hsql.symm, ht.symm⟩

end DuckWriter

/-- C3: across consecutive `write_row_and_get_query` calls against the
same wide table the column set only grows (never loses a column); after
inserting row A and then row B, every column of B is in the table's
column set, row A's stored value for a column Y it did not carry is null,
and no previously stored data is altered (the old rows, A included, are
still there, unchanged and in order). -/
theorem schema_monotone_null_preserving
    (rowA rowB : DuckWriter.RowDict) (yA yB : Int) (glA glB : String)
    (sA cA sB cB : Option String) (tbl : Option DuckWriter.Table)
    (alterA alterB : String → DuckWriter.AlterRes) (sqlA sqlB : String)
    (tA tB : DuckWriter.Table) (Y : String)
    (h1 : DuckWriter.write_row_and_get_query rowA yA glA sA cA tbl alterA =
      .ok (sqlA, tA))
    (h2 : DuckWriter.write_row_and_get_query rowB yB glB sB cB (some tA)
      alterB = .ok (sqlB, tB))
    (hcore : DuckWriter.coreCols ⊆ (tbl.getD DuckWriter.emptyTable).cols)
    (hYrow : Y ∉ DuckWriter.keys rowA)
    (hYcore : Y ∉ DuckWriter.coreCols) :
    ((tbl.getD DuckWriter.emptyTable).cols ⊆ tA.cols ∧ tA.cols ⊆ tB.cols) ∧
      (∀ col ∈ DuckWriter.keys rowB, col ∈ tB.cols) ∧
      tA.rows = (tbl.getD DuckWriter.emptyTable).rows ++
        [DuckWriter.normalizeRow rowA yA (DuckWriter.strLower glA) sA cA] ∧
      tB.rows = (tbl.getD DuckWriter.emptyTable).rows ++
        [DuckWriter.normalizeRow rowA yA (DuckWriter.strLower glA) sA cA,
         DuckWriter.normalizeRow rowB yB (DuckWriter.strLower glB) sB cB] ∧
      DuckWriter.dictGet
        (DuckWriter.normalizeRow rowA yA (DuckWriter.strLower glA) sA cA) Y = none := by
  obtain ⟨tn1, tc1, htf1, hens1, hsql1, ht1⟩ :=
    DuckWriter.write_ok_inv _ _ _ _ _ _ _ _ _ h1
  obtain ⟨hEC1, hrows1⟩ := DuckWriter.ensure_table_inv _ _ _ _ hens1
  subst ht1
  obtain ⟨tn2, tc2, htf2, hens2, hsql2, ht2⟩ :=
    DuckWriter.write_ok_inv _ _ _ _ _ _ _ _ _ h2
  obtain ⟨hEC2, hrows2⟩ := DuckWriter.ensure_table_inv _ _ _ _ hens2
  subst ht2
  simp only [Option.getD] at hEC2 hrows2
  have hpre1 := (DuckWriter.ensureCols_grows alterA _ _ _ hEC1).subset
  have hpre2 := (DuckWriter.ensureCols_grows alterB _ _ _ hEC2).subset
  refine ⟨⟨hpre1, hpre2⟩, ?_, ?_, ?_, ?_⟩
  · intro col hcol
    have hkB := DuckWriter.mem_keys_normalizeRow_of_mem rowB yB (DuckWriter.strLower glB)
      sB cB col hcol
    rcases DuckWriter.ensureCols_mem alterB _ _ _ hEC2 col hkB with hcc | hcc
    · exact hpre2 (hpre1 (hcore hcc))
    · exact hcc
  · rw [hrows1]
  · rw [hrows2, hrows1]
    simp
  · rw [DuckWriter.dictGet_normalizeRow_untouched rowA yA (DuckWriter.strLower glA) sA cA Y
      (fun h => hYcore (by simp [DuckWriter.coreCols, h]))
      (fun h => hYcore (by simp [DuckWriter.coreCols, h]))
      (fun h => hYcore (by simp [DuckWriter.coreCols, h]))
      (fun h => hYcore (by simp [DuckWriter.coreCols, h]))]
    exact DuckWriter.dictGet_none_of_not_mem_keys rowA Y hYrow

/-- C3 witness: write row A carrying only DP02_0001E, then row B carrying
DP02_0001E and DP03_0001E, into a fresh state table. -/
theorem schema_monotone_null_preserving_witness :
    ∃ (tA tB : DuckWriter.Table),
      tA = DuckWriter.Table.mk
        ["geo_level", "year", "state", "county", "NAME", "DP02_0001E"]
        [[("DP02_0001E", .str "10"), ("geo_level", .str "state"),
          ("year", .int 2018), ("state", .str "06")]] ∧
      tB = DuckWriter.Table.mk
        ["geo_level", "year", "state", "county", "NAME", "DP02_0001E",
         "DP03_0001E"]
        [[("DP02_0001E", .str "10"), ("geo_level", .str "state"),
          ("year", .int 2018), ("state", .str "06")],
         [("DP02_0001E", .str "12"), ("DP03_0001E", .str "5"),
          ("geo_level", .str "state"), ("year", .int 2023),
          ("state", .str "06")]] ∧
      (((none : Option DuckWriter.Table).getD DuckWriter.emptyTable).cols ⊆
          tA.cols ∧ tA.cols ⊆ tB.cols) ∧
      (∀ col ∈ DuckWriter.keys
          [("DP02_0001E", DuckWriter.Val.str "12"),
           ("DP03_0001E", DuckWriter.Val.str "5")], col ∈ tB.cols) ∧
      DuckWriter.dictGet
        (DuckWriter.normalizeRow [("DP02_0001E", .str "10")] 2018
          (DuckWriter.strLower "state") (some "06") none) "DP03_0001E" = none := by
  refine ⟨_, _, rfl, rfl, ?_⟩
  have h := schema_monotone_null_preserving
    [("DP02_0001E", .str "10")]
    [("DP02_0001E", .str "12"), ("DP03_0001E", .str "5")]
    2018 2023 "state" "state" (some "06") none (some "06") none none
    (fun _ => .ok) (fun _ => .ok)
    "SELECT * FROM acs5_state_profile WHERE geo_level = 'state' AND year = 2018 AND state = '06';"
    "SELECT * FROM acs5_state_profile WHERE geo_level = 'state' AND year = 2023 AND state = '06';"
    (DuckWriter.Table.mk
      ["geo_level", "year", "state", "county", "NAME", "DP02_0001E"]
      [[("DP02_0001E", .str "10"), ("geo_level", .str "state"),
        ("year", .int 2018), ("state", .str "06")]])
    (DuckWriter.Table.mk
      ["geo_level", "year", "state", "county", "NAME", "DP02_0001E",
       "DP03_0001E"]
      [[("DP02_0001E", .str "10"), ("geo_level", .str "state"),
        ("year", .int 2018), ("state", .str "06")],
       [("DP02_0001E", .str "12"), ("DP03_0001E", .str "5"),
        ("geo_level", .str "state"), ("year", .int 2023),
        ("state", .str "06")]])
    "DP03_0001E" (by decide) (by decide) (by decide) (by decide) (by decide)
  exact ⟨h.1, h.2.1, h.2.2.2.2⟩

/-- C9: during schema evolution, an `ALTER TABLE ADD COLUMN` failure whose
message contains "already exists" is treated as success — the column is
recorded as present and the loop continues with the remaining columns,
and on overall success the column is in the final column set; any other
error message propagates to the caller. -/
theorem ensure_table_race_tolerant (alter : String → DuckWriter.AlterRes)
    (cols rest : List String) (col m : String)
    (hcore : col ∉ DuckWriter.coreCols) (hex : col ∉ cols)
    (herr : alter col = .err m) :
    (DuckWriter.strContains m "already exists" = true →
      DuckWriter.ensureCols alter cols (col :: rest) =
        DuckWriter.ensureCols alter (cols ++ [col]) rest ∧
      (∀ cs, DuckWriter.ensureCols alter (cols ++ [col]) rest = .ok cs →
        col ∈ cs)) ∧
    (DuckWriter.strContains m "already exists" = false →
      DuckWriter.ensureCols alter cols (col :: rest) = .error m) := by
  constructor
  · intro hmsg
    constructor
    · simp only [DuckWriter.ensureCols]
      rw [if_neg hcore, if_neg hex, herr]
      simp [hmsg]
    · intro cs hcs
      exact (DuckWriter.ensureCols_grows alter rest _ cs hcs).subset
        (by simp)
  · intro hmsg
    simp only [DuckWriter.ensureCols]
    rw [if_neg hcore, if_neg hex, herr]
    simp [hmsg]

/-- C9 witness: the benign race on DP02_0001E is ignored (the column ends
up present), while a distinct error aborts evolution. -/
theorem ensure_table_race_tolerant_witness :
    (DuckWriter.ensureCols
        (fun _ => .err "Column with name DP02_0001E already exists!")
        DuckWriter.coreCols ["DP02_0001E"] =
      DuckWriter.ensureCols
        (fun _ => .err "Column with name DP02_0001E already exists!")
        (DuckWriter.coreCols ++ ["DP02_0001E"]) [] ∧
      (∀ cs, DuckWriter.ensureCols
          (fun _ => .err "Column with name DP02_0001E already exists!")
          (DuckWriter.coreCols ++ ["DP02_0001E"]) [] = .ok cs →
        "DP02_0001E" ∈ cs)) ∧
      DuckWriter.ensureCols (fun _ => .err "out of disk space")
        DuckWriter.coreCols ["DP02_0001E"] = .error "out of disk space" := by
  constructor
  · exact (ensure_table_race_tolerant
      (fun _ => .err "Column with name DP02_0001E already exists!")
      DuckWriter.coreCols [] "DP02_0001E"
      "Column with name DP02_0001E already exists!"
      (by decide) (by decide) rfl).1 (by decide)
  · exact (ensure_table_race_tolerant
      (fun _ => .err "out of disk space")
      DuckWriter.coreCols [] "DP02_0001E" "out of disk space"
      (by decide) (by decide) rfl).2 (by decide)

namespace DuckWriter

theorem dictGet_normalizeRow_geo_level (row : RowDict) (year : Int)
    (gl : String) (s c : Option String) :
    dictGet (normalizeRow row year gl s c) "geo_level" =
      some (.str gl) := by
  unfold normalizeRow
  have h1 : ("geo_level" : String) ≠ "county" := by decide
  have h2 : ("geo_level" : String) ≠ "state" := by decide
  have h3 : ("geo_level" : String) ≠ "year" := by decide
  cases s <;> cases c <;>
    simp [dictGet_dictSet_other h1, dictGet_dictSet_other h2,
      dictGet_dictSet_other h3, dictGet_dictSet_self]

theorem dictGet_normalizeRow_year (row : RowDict) (year : Int)
    (gl : String) (s c : Option String) :
    dictGet (normalizeRow row year gl s c) "year" = some (.int year) := by
  unfold normalizeRow
  have h1 : ("year" : String) ≠ "county" := by decide
  have h2 : ("year" : String) ≠ "state" := by decide
  cases s <;> cases c <;>
    simp [dictGet_dictSet_other h1, dictGet_dictSet_other h2,
      dictGet_dictSet_self]

theorem dictGet_normalizeRow_state (row : RowDict) (year : Int)
    (gl sv : String) (c : Option String) :
    dictGet (normalizeRow row year gl (some sv) c) "state" =
      some (.str (zfill sv 2)) := by
  unfold normalizeRow
  have h1 : ("state" : String) ≠ "county" := by decide
  cases c <;> simp [dictGet_dictSet_other h1, dictGet_dictSet_self]

theorem dictGet_normalizeRow_county_some (row : RowDict) (year : Int)
    (gl : String) (s : Option String) (cv : String) :
    dictGet (normalizeRow row year gl s (some cv)) "county" =
      some (.str (zfill cv 3)) := by
  unfold normalizeRow
  cases s <;> simp [dictGet_dictSet_self]

theorem dictGet_normalizeRow_county_none (row : RowDict) (year : Int)
    (gl : String) (s : Option String) :
    dictGet (normalizeRow row year gl s none) "county" =
      dictGet row "county" := by
  unfold normalizeRow
  have h1 : ("county" : String) ≠ "state" := by decide
  have h2 : ("county" : String) ≠ "year" := by decide
  have h3 : ("county" : String) ≠ "geo_level" := by decide
  cases s <;>
    simp [dictGet_dictSet_other h1, dictGet_dictSet_other h2,
      dictGet_dictSet_other h3]

end DuckWriter

/-- C4 counterexample: the claim says the county identifier is omitted for
state rows, but the code omits it only when `county_fips is None`: a
state-level write that is handed a county code writes `county = '059'`
into the row and pins it in the returned WHERE clause. -/
theorem write_row_state_county_not_omitted :
    DuckWriter.write_row_and_get_query [] 2023 "state" (some "6")
      (some "59") none (fun _ => .ok) =
    .ok ("SELECT * FROM acs5_state_profile WHERE geo_level = 'state' AND year = 2023 AND state = '06' AND county = '059';",
      DuckWriter.Table.mk ["geo_level", "year", "state", "county", "NAME"]
        [[("geo_level", .str "state"), ("year", .int 2023),
          ("state", .str "06"), ("county", .str "059")]]) := by
  decide

/-- C4 (amended): `write_row_and_get_query` overwrites the row's
identifier fields before writing — `geo_level` (lowercased), `year` as an
integer, `state` zero-padded to 2 digits when a state code is supplied,
`county` zero-padded to 3 digits when a county code is supplied and
omitted when none is supplied (callers pass none for state rows) — the
inserted record is that normalized row, and the returned SELECT's WHERE
clause pins `geo_level`, `year`, and whichever of `state`/`county` the
written row carries, with exactly the written (zero-padded) values. -/
theorem write_row_select_pins_written_ids (row : DuckWriter.RowDict)
    (year : Int) (geo_level : String) (s c : Option String)
    (tbl : Option DuckWriter.Table) (alter : String → DuckWriter.AlterRes)
    (sql : String) (t' : DuckWriter.Table)
    (h : DuckWriter.write_row_and_get_query row year geo_level s c tbl
      alter = .ok (sql, t')) :
    DuckWriter.dictGet
        (DuckWriter.normalizeRow row year (DuckWriter.strLower geo_level) s c)
        "geo_level" = some (.str (DuckWriter.strLower geo_level)) ∧
      DuckWriter.dictGet
        (DuckWriter.normalizeRow row year (DuckWriter.strLower geo_level) s c)
        "year" = some (.int year) ∧
      (∀ sv, s = some sv →
        DuckWriter.dictGet
          (DuckWriter.normalizeRow row year (DuckWriter.strLower geo_level) s c)
          "state" = some (.str (DuckWriter.zfill sv 2))) ∧
      (∀ cv, c = some cv →
        DuckWriter.dictGet
          (DuckWriter.normalizeRow row year (DuckWriter.strLower geo_level) s c)
          "county" = some (.str (DuckWriter.zfill cv 3))) ∧
      (c = none → "county" ∉ DuckWriter.keys row →
        DuckWriter.dictGet
          (DuckWriter.normalizeRow row year (DuckWriter.strLower geo_level) s c)
          "county" = none) ∧
      t'.rows.getLast? = some
        (DuckWriter.normalizeRow row year (DuckWriter.strLower geo_level) s c) ∧
      (∃ tname,
        DuckWriter.tableFor (DuckWriter.strLower geo_level) s = .ok tname ∧
        sql = "SELECT * FROM " ++ tname ++ " WHERE " ++
          String.intercalate " AND "
            (["geo_level = '" ++ DuckWriter.strLower geo_level ++ "'",
              "year = " ++ toString year]
              ++ (match DuckWriter.dictGet
                    (DuckWriter.normalizeRow row year
                      (DuckWriter.strLower geo_level) s c) "state" with
                  | some v => ["state = '" ++ DuckWriter.valStr v ++ "'"]
                  | none => [])
              ++ (match DuckWriter.dictGet
                    (DuckWriter.normalizeRow row year
                      (DuckWriter.strLower geo_level) s c) "county" with
                  | some v => ["county = '" ++ DuckWriter.valStr v ++ "'"]
                  | none => [])) ++ ";") := by
  obtain ⟨tname, tc, htf, hens, hsql, ht⟩ :=
    DuckWriter.write_ok_inv _ _ _ _ _ _ _ _ _ h
  refine ⟨DuckWriter.dictGet_normalizeRow_geo_level _ _ _ _ _,
    DuckWriter.dictGet_normalizeRow_year _ _ _ _ _, ?_, ?_, ?_, ?_, ?_⟩
  · intro sv hsv
    subst hsv
    exact DuckWriter.dictGet_normalizeRow_state _ _ _ _ _
  · intro cv hcv
    subst hcv
    exact DuckWriter.dictGet_normalizeRow_county_some _ _ _ _ _
  · intro hcn hck
    subst hcn
    rw [DuckWriter.dictGet_normalizeRow_county_none]
    exact DuckWriter.dictGet_none_of_not_mem_keys row "county" hck
  · rw [ht]
    exact List.getLast?_concat _
  · exact ⟨tname, htf, hsql⟩

/-- C4 witness: a county-level write of an empty row with codes "6" and
"59" stores the zero-padded identifiers and returns the matching SELECT. -/
theorem write_row_select_pins_written_ids_witness :
    (∀ sv, (some "6" : Option String) = some sv →
      DuckWriter.dictGet
        (DuckWriter.normalizeRow [] 2020 (DuckWriter.strLower "county")
          (some "6") (some "59")) "state" =
        some (.str (DuckWriter.zfill sv 2))) ∧
    (∀ cv, (some "59" : Option String) = some cv →
      DuckWriter.dictGet
        (DuckWriter.normalizeRow [] 2020 (DuckWriter.strLower "county")
          (some "6") (some "59")) "county" =
        some (.str (DuckWriter.zfill cv 3))) ∧
    (DuckWriter.Table.mk ["geo_level", "year", "state", "county", "NAME"]
        [[("geo_level", .str "county"), ("year", .int 2020),
          ("state", .str "06"), ("county", .str "059")]]).rows.getLast? =
      some (DuckWriter.normalizeRow [] 2020 (DuckWriter.strLower "county")
        (some "6") (some "59")) := by
  have h := write_row_select_pins_written_ids [] 2020 "county" (some "6")
    (some "59") none (fun _ => .ok)
    "SELECT * FROM acs5_county_profile WHERE geo_level = 'county' AND year = 2020 AND state = '06' AND county = '059';"
    (DuckWriter.Table.mk ["geo_level", "year", "state", "county", "NAME"]
      [[("geo_level", .str "county"), ("year", .int 2020),
        ("state", .str "06"), ("county", .str "059")]])
    (by decide)
  exact ⟨h.2.2.1, h.2.2.2.1, h.2.2.2.2.2.1⟩

namespace AcsLoader

/-- `s.startswith(pre)`: prefix test, restated on the character lists so
that it evaluates inside proofs (core `String.startsWith` is defined by
well-founded recursion). -/
def strStartsWith (s pre : String) : Bool :=
  pre.data.isPrefixOf s.data

/-- Decidability of `<` on strings through the character lists, so that
sorting evaluates inside proofs (the iterator-based `String.ltb` is
defined by well-founded recursion and does not reduce). -/
instance (priority := 2000) decStrLt :
    DecidableRel ((· < ·) : String → String → Prop) := fun a b =>
  decidable_of_iff (a.data < b.data) String.lt_iff_toList_lt.symm

/-- Decidability of `≤` on strings through the character lists. -/
instance (priority := 2000) decStrLe :
    DecidableRel ((· ≤ ·) : String → String → Prop) := fun a b =>
  @instDecidableNot _ (decStrLt b a)

/-- Python `list.sort()` on strings: lexicographic. -/
def sortStrings (l : List String) : List String :=
  l.insertionSort (· ≤ ·)

/-- The delta expression emitted for one column:
`try_cast(b."c" AS DOUBLE) - try_cast(a."c" AS DOUBLE) AS "c__delta"`. -/
def deltaExpr (c : String) : String :=
  "try_cast(b.\"" ++ c ++ "\" AS DOUBLE) - try_cast(a.\"" ++ c
    ++ "\" AS DOUBLE) AS \"" ++ c ++ "__delta\""

/-- `build_delta_sql(year_a, year_b, geo_level, state_fips, county_fips,
all_columns, table)` from `acs_loader.py`. -/
def build_delta_sql (year_a year_b : Int) (geo_level state_fips : String)
    (county_fips : Option String) (all_columns : List String)
    (table : String) : String :=
  let dp_cols := sortStrings (all_columns.filter
    (fun c => strStartsWith c "DP"))
  let delta_exprs := dp_cols.map deltaExpr
  let join_on := "a.geo_level=b.geo_level AND a.state=b.state AND coalesce(a.county,'')=coalesce(b.county,'')"
  let where_geo :=
    ["a.geo_level='" ++ geo_level ++ "'"]
      ++ (if geo_level = "state" then ["a.state='" ++ state_fips ++ "'"]
          else ["a.state='" ++ state_fips ++ "'",
                "a.county='" ++ optStr county_fips ++ "'"])
      ++ ["a.year=" ++ toString year_a, "b.year=" ++ toString year_b]
  let select_id :=
    ["a.geo_level AS geo_level", "a.state AS state", "a.county AS county",
     "a.year AS year_a", "b.year AS year_b", "a.NAME AS NAME_a",
     "b.NAME AS NAME_b"]
  ("\nSELECT\n  " ++ String.intercalate ", " select_id
    ++ "\n  , " ++ String.intercalate ", " delta_exprs
    ++ "\nFROM " ++ table ++ " a\nJOIN " ++ table ++ " b\n  ON " ++ join_on
    ++ "\nWHERE " ++ String.intercalate " AND " where_geo ++ "\n").trim

/-- A persisted snapshot row: column name → stored text; an absent column
reads as SQL NULL. -/
abbrev SqlRow : Type := List (String × String)

/-- The value of column `k` in the row (`none` = SQL NULL). -/
def rowGet : SqlRow → String → Option String
  | [], _ => none
  | p :: t, k => if p.1 = k then some p.2 else rowGet t k

/-- Digits of a numeral, as a natural number; `none` on any non-digit or
on the empty list. -/
def parseNatDigits : List Char → Option Nat
  | [] => none
  | cs =>
    cs.foldl (fun acc c =>
      acc.bind (fun n =>
        if c.isDigit then some (n * 10 + (c.toNat - 48)) else none))
      (some 0)

/-- An optionally signed integer numeral, as an integer; `none` on
anything else. -/
def parseIntText : List Char → Option Int
  | '-' :: rest => (parseNatDigits rest).map (fun n => -(n : Int))
  | '+' :: rest => (parseNatDigits rest).map (fun n => (n : Int))
  | cs => (parseNatDigits cs).map (fun n => (n : Int))

/-- `try_cast(x AS DOUBLE)` on a text or NULL operand: a tolerant numeric
cast that yields NULL instead of raising on non-numeric text. DOUBLE is
modelled exactly over ℚ; the numerals exercised here are optionally
signed integers. -/
def tryCastDouble (o : Option String) : Option ℚ :=
  o.bind (fun s => (parseIntText s.data).map (fun n => (n : ℚ)))

/-- The SQL value of the emitted expression
`try_cast(b."c" AS DOUBLE) - try_cast(a."c" AS DOUBLE)` over the two
snapshots: SQL subtraction is NULL whenever either operand is NULL. -/
def deltaValue (rowA rowB : SqlRow) (c : String) : Option ℚ :=
  match tryCastDouble (rowGet rowB c), tryCastDouble (rowGet rowA c) with
  | some b, some a => some (b - a)
  | _, _ => none

end AcsLoader

/-- C6: `build_delta_sql` keeps exactly the columns carrying the tracked
"DP" variable-family prefix, sorted, and for each emits the tolerant
double-cast subtraction `b − a` aliased `{column}__delta`; on the example
snapshots (A at 2018 holding DP02_0001E = "10"; B at 2023 holding
DP02_0001E = "12" and DP03_0001E = "5") the emitted expression evaluates
to 2 for DP02_0001E and to null for DP03_0001E, absent in A, rather than
failing. -/
theorem build_delta_sql_spec (year_a year_b : Int)
    (geo_level state_fips : String) (county_fips : Option String)
    (all_columns : List String) (table : String) :
    (AcsLoader.sortStrings (all_columns.filter
        (fun c => AcsLoader.strStartsWith c "DP"))).Sorted (· ≤ ·) ∧
    (∀ c, c ∈ AcsLoader.sortStrings (all_columns.filter
        (fun c => AcsLoader.strStartsWith c "DP")) ↔
      c ∈ all_columns ∧ AcsLoader.strStartsWith c "DP" = true) ∧
    AcsLoader.build_delta_sql year_a year_b geo_level state_fips county_fips
        all_columns table =
      ("\nSELECT\n  " ++ String.intercalate ", "
          ["a.geo_level AS geo_level", "a.state AS state",
           "a.county AS county", "a.year AS year_a", "b.year AS year_b",
           "a.NAME AS NAME_a", "b.NAME AS NAME_b"]
        ++ "\n  , " ++ String.intercalate ", "
          ((AcsLoader.sortStrings (all_columns.filter
              (fun c => AcsLoader.strStartsWith c "DP"))).map
            AcsLoader.deltaExpr)
        ++ "\nFROM " ++ table ++ " a\nJOIN " ++ table ++ " b\n  ON "
        ++ "a.geo_level=b.geo_level AND a.state=b.state AND coalesce(a.county,'')=coalesce(b.county,'')"
        ++ "\nWHERE " ++ String.intercalate " AND "
          (["a.geo_level='" ++ geo_level ++ "'"]
            ++ (if geo_level = "state" then
                  ["a.state='" ++ state_fips ++ "'"]
                else
                  ["a.state='" ++ state_fips ++ "'",
                   "a.county='" ++ AcsLoader.optStr county_fips ++ "'"])
            ++ ["a.year=" ++ toString year_a,
                "b.year=" ++ toString year_b])
        ++ "\n").trim ∧
    AcsLoader.deltaValue [("NAME", "California"), ("DP02_0001E", "10")]
      [("NAME", "California"), ("DP02_0001E", "12"), ("DP03_0001E", "5")]
      "DP02_0001E" = some 2 ∧
    AcsLoader.deltaValue [("NAME", "California"), ("DP02_0001E", "10")]
      [("NAME", "California"), ("DP02_0001E", "12"), ("DP03_0001E", "5")]
      "DP03_0001E" = none := by
  refine ⟨List.sorted_insertionSort _ _, ?_, rfl, ?_, ?_⟩
  · intro c
    simp only [AcsLoader.sortStrings]
    rw [(List.perm_insertionSort _ _).mem_iff, List.mem_filter]
  · have hb : AcsLoader.rowGet
        [("NAME", "California"), ("DP02_0001E", "12"), ("DP03_0001E", "5")]
        "DP02_0001E" = some "12" := by decide
    have ha : AcsLoader.rowGet
        [("NAME", "California"), ("DP02_0001E", "10")] "DP02_0001E" =
        some "10" := by decide
    have hcb : AcsLoader.tryCastDouble (some "12") =
        some ((12 : Int) : ℚ) := by
      simp [AcsLoader.tryCastDouble,
        show AcsLoader.parseIntText "12".data = some (12 : Int) from
          by decide]
    have hca : AcsLoader.tryCastDouble (some "10") =
        some ((10 : Int) : ℚ) := by
      simp [AcsLoader.tryCastDouble,
        show AcsLoader.parseIntText "10".data = some (10 : Int) from
          by decide]
    unfold AcsLoader.deltaValue
    rw [hb, ha, hcb, hca]
    norm_num
  · have hb : AcsLoader.rowGet
        [("NAME", "California"), ("DP02_0001E", "12"), ("DP03_0001E", "5")]
        "DP03_0001E" = some "5" := by decide
    have ha : AcsLoader.rowGet
        [("NAME", "California"), ("DP02_0001E", "10")] "DP03_0001E" =
        none := by decide
    unfold AcsLoader.deltaValue
    rw [hb, ha]
    simp [AcsLoader.tryCastDouble]

namespace AcsLoader

/-- A JSON value as this code stores it in the KV cache: a list of
variable codes (`groupvars:`, `years:` keys) or a string-to-string
mapping (`counties:`, `row:` keys). `json.dumps`/`json.loads`
round-tripping is the identity on these, so the cache is modelled as
holding the decoded values. -/
inductive JVal where
  | strList (xs : List String)
  | strMap (m : List (String × String))
deriving DecidableEq, Repr

/-- The DuckDB-backed KV cache, decoded. -/
abbrev KV : Type := DuckWriter.KVT JVal

/-- `_kv_load_json(key)`: `kv_get` then `json.loads`. -/
def _kv_load_json (kv : KV) (key : String) : Option JVal :=
  DuckWriter.kvLookup kv key

/-- `_kv_save_json(key, obj)`: `json.dumps` then a committing `kv_set`. -/
def _kv_save_json (kv : KV) (key : String) (v : JVal) : KV :=
  DuckWriter.kvSet kv key v

/-- Iterating a cached JSON value, as Python does when extending a list
with it: a list yields its elements, a dict its keys. -/
def jvalItems : JVal → List String
  | .strList xs => xs
  | .strMap m => m.map (fun p => p.1)

/-- The remote API, as an oracle. `groupMeta year group` is the key set
of the `variables` object of the group metadata document (iterating
`meta.get("variables", {})` yields the variable codes); `fetch` answers a
data query (year, get-list, geo kind, state, county) with the raw 2-D
array (header row first). -/
structure NetData where
  groupMeta : String → String → List String
  fetch : String → List String → String → Option String → Option String →
    List (List String)

/-- `get_group_variables(year, group)`: on cache hit return the cached
value; on miss fetch the metadata (one round-trip), keep the codes
prefixed `{group}_`, sort, cache, return. The final component counts
network round-trips. -/
def get_group_variables (year group : String) (kv : KV)
    (groupMeta : String → String → List String) : JVal × KV × Nat :=
  let cache_key := "groupvars:" ++ year ++ ":" ++ group
  match _kv_load_json kv cache_key with
  | some cached => (cached, kv, 0)
  | none =>
    let vars_all := sortStrings ((groupMeta year group).filter
      (fun vn => strStartsWith vn (group ++ "_")))
    (.strList vars_all, _kv_save_json kv cache_key (.strList vars_all), 1)

/-- `discover_all_vars(year, groups)`: concatenate the per-group variable
lists in the order the groups were requested, threading the cache. -/
def discover_all_vars (year : String) (groups : List String) (kv : KV)
    (net : NetData) : List String × KV × Nat :=
  match groups with
  | [] => ([], kv, 0)
  | g :: rest =>
    let r1 := get_group_variables year g kv net.groupMeta
    let r2 := discover_all_vars year rest r1.2.1 net
    (jvalItems r1.1 ++ r2.1, r2.2.1, r1.2.2 + r2.2.2)

/-- Python dict assignment `d[k] = v` for string values. -/
def assocSet (d : List (String × String)) (k v : String) :
    List (String × String) :=
  if d.any (fun p => p.1 = k) then
    d.map (fun p => if p.1 = k then (k, v) else p)
  else d ++ [(k, v)]

/-- `out.update(dict(zip(headers, values)))`. -/
def dictUpdate (d : List (String × String))
    (kvs : List (String × String)) : List (String × String) :=
  kvs.foldl (fun acc p => assocSet acc p.1 p.2) d

def BATCH_SIZE : Nat := 45

/-- The batching loop of `fetch_vars`: take 45 variables at a time,
prepend `NAME`, issue the query, and merge `dict(zip(headers, values))`
into the accumulator; `data[0], data[1]` raises if the response has fewer
than 2 rows, and an unsupported geo kind raises `ValueError` (only when a
batch is actually issued, as in the source loop). The loop consumes at
least one variable per round, so recursion is on a fuel initialized to
the variable count by `fetch_vars`; the fuel branch is unreachable. -/
def fetchVarsGo (net : NetData) (year geo_kind : String)
    (state_fips county_fips : Option String) :
    Nat → List String → List (String × String) → Nat →
      Except String (List (String × String) × Nat)
  | _, [], out, calls => .ok (out, calls)
  | 0, _ :: _, _, _ => .error "fuel exhausted (unreachable)"
  | f + 1, v :: vs, out, calls =>
    if geo_kind = "state" ∨ geo_kind = "county" then
      let chunk := (v :: vs).take BATCH_SIZE
      let rest := (v :: vs).drop BATCH_SIZE
      let get_list := "NAME" :: chunk
      match net.fetch year get_list geo_kind state_fips county_fips with
      | headers :: values :: _ =>
        fetchVarsGo net year geo_kind state_fips county_fips f rest
          (dictUpdate out (headers.zip values)) (calls + 1)
      | _ => .error "IndexError"
    else .error "geo_kind must be 'state' or 'county'"

/-- `fetch_vars(year, varnames, geo_kind, state_fips, county_fips)`. -/
def fetch_vars (year : String) (varnames : List String) (geo_kind : String)
    (state_fips county_fips : Option String) (net : NetData) :
    Except String (List (String × String) × Nat) :=
  fetchVarsGo net year geo_kind state_fips county_fips varnames.length
    varnames [] 0

/-- `{k: row[k] for k in sorted(row.keys())}`. -/
def orderedOf (row : List (String × String)) : List (String × String) :=
  (sortStrings (row.map (fun p => p.1))).filterMap
    (fun k => (DuckWriter.kvLookup row k).map (fun v => (k, v)))

/-- `fetch_or_cache(year, geo_kind, groups, state_fips, county_fips)`:
return the cached wide row with a hit flag, or discover the variables,
fetch them in batches, sort the assembled row's keys, cache and return
it. The final component counts network round-trips performed. -/
def fetch_or_cache (year geo_kind : String) (groups : List String)
    (state_fips : String) (county_fips : Option String) (kv : KV)
    (net : NetData) : Except String (JVal × Bool × KV × Nat) :=
  let key := _row_cache_key year geo_kind groups state_fips county_fips
  match _kv_load_json kv key with
  | some cached => .ok (cached, true, kv, 0)
  | none =>
    let d := discover_all_vars year groups kv net
    let fetched :=
      if geo_kind = "state" then
        fetch_vars year d.1 "state" (some state_fips) none net
      else
        fetch_vars year d.1 "county" (some state_fips) county_fips net
    match fetched with
    | .error e => .error e
    | .ok (row, n2) =>
      let ordered := orderedOf row
      .ok (.strMap ordered, false,
        _kv_save_json d.2.1 key (.strMap ordered), d.2.2 + n2)

/-- `headers.index(x)`: position of the first occurrence, if any (a miss
raises `ValueError` in Python). -/
def indexOfStr (l : List String) (x : String) : Option Nat :=
  l.findIdx? (fun y => y = x)

/-- The row loop of `list_counties_for_state`: `result[county] = name`
for each data row, raising `IndexError` when a row is too short. -/
def countiesRows (name_idx county_idx : Nat) :
    List (List String) → List (String × String) →
      Except String (List (String × String))
  | [], acc => .ok acc
  | row :: rest, acc =>
    match row[county_idx]?, row[name_idx]? with
    | some county, some name =>
      countiesRows name_idx county_idx rest (assocSet acc county name)
    | _, _ => .error "IndexError"

/-- `list_counties_for_state(year, state_fips)` over a response oracle
`data` (the raw 2-D array). Mirrors the source: cache hit short-circuits;
a response with fewer than 2 rows yields the empty mapping WITHOUT
caching; otherwise the parsed mapping is cached and returned. -/
def list_counties_for_state (year state_fips : String) (kv : KV)
    (data : List (List String)) : Except String (JVal × KV) :=
  let cache_key := "counties:" ++ year ++ ":" ++ state_fips
  match _kv_load_json kv cache_key with
  | some cached => .ok (cached, kv)
  | none =>
    if data.isEmpty || data.length < 2 then .ok (.strMap [], kv)
    else
      match data with
      | [] => .ok (.strMap [], kv)
      | headers :: rows =>
        match indexOfStr headers "NAME", indexOfStr headers "county" with
        | some name_idx, some county_idx =>
          match countiesRows name_idx county_idx rows [] with
          | .ok result =>
            .ok (.strMap result,
              _kv_save_json kv cache_key (.strMap result))
          | .error e => .error e
        | _, _ => .error "ValueError: substring not found"

end AcsLoader

/-- C8: on a cache miss, `get_group_variables` returns exactly the codes
of the metadata response prefixed by `{group}_`, lexicographically
sorted, with no duplicates (the codes are keys of a JSON object, hence
distinct), and stores that same sorted list under
`groupvars:{vintage}:{group}`. -/
theorem get_group_variables_sorted (year group : String)
    (kv : AcsLoader.KV) (groupMeta : String → String → List String)
    (hmiss : AcsLoader._kv_load_json kv
      ("groupvars:" ++ year ++ ":" ++ group) = none)
    (hnodup : (groupMeta year group).Nodup) :
    ∃ l, AcsLoader.get_group_variables year group kv groupMeta =
        (.strList l,
         AcsLoader._kv_save_json kv ("groupvars:" ++ year ++ ":" ++ group)
           (.strList l), 1) ∧
      l.Sorted (· ≤ ·) ∧ l.Nodup ∧
      (∀ x, x ∈ l ↔ x ∈ groupMeta year group ∧
        AcsLoader.strStartsWith x (group ++ "_") = true) ∧
      AcsLoader._kv_load_json
        (AcsLoader.get_group_variables year group kv groupMeta).2.1
        ("groupvars:" ++ year ++ ":" ++ group) = some (.strList l) := by
  refine ⟨AcsLoader.sortStrings ((groupMeta year group).filter
    (fun vn => AcsLoader.strStartsWith vn (group ++ "_"))), ?_, ?_, ?_, ?_, ?_⟩
  · simp only [AcsLoader.get_group_variables]
    rw [hmiss]
  · exact List.sorted_insertionSort _ _
  · exact (List.perm_insertionSort _ _).nodup_iff.mpr
      (List.Nodup.filter _ hnodup)
  · intro x
    simp only [AcsLoader.sortStrings]
    rw [(List.perm_insertionSort _ _).mem_iff, List.mem_filter]
  · simp only [AcsLoader.get_group_variables]
    rw [hmiss]
    exact DuckWriter.kvLookup_kvSet_self kv _ _

/-- C8 witness: an unordered metadata response with a stray code. -/
theorem get_group_variables_sorted_witness :
    ∃ l, AcsLoader.get_group_variables "2023" "DP02" []
        (fun _ _ => ["DP02_0002E", "DP02_0001E", "NAME", "DP03_0001E"]) =
        (.strList l,
         AcsLoader._kv_save_json [] ("groupvars:" ++ "2023" ++ ":" ++ "DP02")
           (.strList l), 1) ∧
      l.Sorted (· ≤ ·) ∧ l.Nodup ∧
      (∀ x, x ∈ l ↔
        x ∈ (fun _ _ : String =>
            ["DP02_0002E", "DP02_0001E", "NAME", "DP03_0001E"]) "2023" "DP02" ∧
        AcsLoader.strStartsWith x ("DP02" ++ "_") = true) ∧
      AcsLoader._kv_load_json
        (AcsLoader.get_group_variables "2023" "DP02" []
          (fun _ _ => ["DP02_0002E", "DP02_0001E", "NAME", "DP03_0001E"])).2.1
        ("groupvars:" ++ "2023" ++ ":" ++ "DP02") = some (.strList l) :=
  get_group_variables_sorted "2023" "DP02" []
    (fun _ _ => ["DP02_0002E", "DP02_0001E", "NAME", "DP03_0001E"])
    (by decide) (by decide)

/-- C10: when the counties response has fewer than 2 rows,
`list_counties_for_state` returns the empty mapping and leaves the cache
untouched (the save is only reached in the non-empty branch), so a later
call with the same key misses the cache again; by contrast a parsed
non-empty response is stored under `counties:{vintage}:{state}`. -/
theorem list_counties_empty_not_cached (year state_fips : String)
    (kv : AcsLoader.KV) (data : List (List String))
    (hmiss : AcsLoader._kv_load_json kv
      ("counties:" ++ year ++ ":" ++ state_fips) = none)
    (hshort : data.length < 2) :
    AcsLoader.list_counties_for_state year state_fips kv data =
        .ok (.strMap [], kv) ∧
      (∀ (headers : List String) (rows : List (List String))
          (name_idx county_idx : Nat) (result : List (String × String)),
        2 ≤ (headers :: rows).length →
        AcsLoader.indexOfStr headers "NAME" = some name_idx →
        AcsLoader.indexOfStr headers "county" = some county_idx →
        AcsLoader.countiesRows name_idx county_idx rows [] = .ok result →
        AcsLoader.list_counties_for_state year state_fips kv
            (headers :: rows) =
          .ok (.strMap result,
            AcsLoader._kv_save_json kv
              ("counties:" ++ year ++ ":" ++ state_fips)
              (.strMap result)) ∧
        AcsLoader._kv_load_json
            (AcsLoader._kv_save_json kv
              ("counties:" ++ year ++ ":" ++ state_fips) (.strMap result))
            ("counties:" ++ year ++ ":" ++ state_fips) =
          some (.strMap result)) := by
  constructor
  · simp only [AcsLoader.list_counties_for_state]
    rw [hmiss]
    have hc : (data.isEmpty || decide (data.length < 2)) = true := by
      simp [hshort]
    rw [if_pos hc]
  · intro headers rows name_idx county_idx result hlen hni hci hrows
    constructor
    · simp only [AcsLoader.list_counties_for_state]
      rw [hmiss]
      have hc : ((headers :: rows).isEmpty ||
          decide ((headers :: rows).length < 2)) = false := by
        simp only [List.isEmpty_cons, Bool.false_or, decide_eq_false_iff_not]
        omega
      rw [hc]
      simp only [Bool.false_eq_true, if_false]
      rw [hni, hci]
      show (match AcsLoader.countiesRows name_idx county_idx rows [] with
        | Except.ok result =>
          Except.ok (AcsLoader.JVal.strMap result,
            AcsLoader._kv_save_json kv
              ("counties:" ++ year ++ ":" ++ state_fips)
              (AcsLoader.JVal.strMap result))
        | Except.error e => Except.error e) = _
      rw [hrows]
    · exact DuckWriter.kvLookup_kvSet_self kv _ _

/-- C10 witness: an empty response is not cached; a 2-row response is. -/
theorem list_counties_empty_not_cached_witness :
    AcsLoader.list_counties_for_state "2023" "06" [] [] =
        .ok (.strMap [], []) ∧
      (AcsLoader.list_counties_for_state "2023" "06" []
          [["NAME", "state", "county"], ["Orange County", "06", "059"]] =
        .ok (.strMap [("059", "Orange County")],
          AcsLoader._kv_save_json [] ("counties:" ++ "2023" ++ ":" ++ "06")
            (.strMap [("059", "Orange County")])) ∧
        AcsLoader._kv_load_json
          (AcsLoader._kv_save_json [] ("counties:" ++ "2023" ++ ":" ++ "06")
            (.strMap [("059", "Orange County")]))
          ("counties:" ++ "2023" ++ ":" ++ "06") =
          some (.strMap [("059", "Orange County")])) := by
  have h := list_counties_empty_not_cached "2023" "06" [] [] (by decide)
    (by decide)
  exact ⟨h.1, h.2 ["NAME", "state", "county"] [["Orange County", "06", "059"]]
    0 2 [("059", "Orange County")] (by decide) (by decide) (by decide)
    (by decide)⟩

/-- C1: when the row cache already holds an entry under the derived key,
`fetch_or_cache` returns that cached row unchanged with
`was_cache_hit = True` and performs no network round-trip; consequently,
after any successful call, repeating the call with identical arguments is
a cache hit that performs zero network round-trips and returns row
content identical to what the first call cached. -/
theorem fetch_or_cache_idempotent (year geo_kind : String)
    (groups : List String) (state_fips : String)
    (county_fips : Option String) (kv : AcsLoader.KV)
    (net : AcsLoader.NetData) :
    (∀ v, AcsLoader._kv_load_json kv
        (AcsLoader._row_cache_key year geo_kind groups state_fips
          county_fips) = some v →
      AcsLoader.fetch_or_cache year geo_kind groups state_fips county_fips
        kv net = .ok (v, true, kv, 0)) ∧
    (∀ r hflag kv' n,
      AcsLoader.fetch_or_cache year geo_kind groups state_fips county_fips
        kv net = .ok (r, hflag, kv', n) →
      AcsLoader._kv_load_json kv'
        (AcsLoader._row_cache_key year geo_kind groups state_fips
          county_fips) = some r ∧
      AcsLoader.fetch_or_cache year geo_kind groups state_fips county_fips
        kv' net = .ok (r, true, kv', 0)) := by
  constructor
  · intro v hv
    simp only [AcsLoader.fetch_or_cache]
    rw [hv]
  · intro r hflag kv' n h
    cases hlk : AcsLoader._kv_load_json kv
        (AcsLoader._row_cache_key year geo_kind groups state_fips
          county_fips) with
    | some v =>
      simp only [AcsLoader.fetch_or_cache] at h
      rw [hlk] at h
      injection h with h2
      simp only [Prod.mk.injEq] at h2
      obtain ⟨h3, _, h5, _⟩ := h2
      subst h3
      subst h5
      refine ⟨hlk, ?_⟩
      simp only [AcsLoader.fetch_or_cache]
      rw [hlk]
    | none =>
      simp only [AcsLoader.fetch_or_cache] at h
      rw [hlk] at h
      cases hfe : (if geo_kind = "state" then
          AcsLoader.fetch_vars year
            (AcsLoader.discover_all_vars year groups kv net).1 "state"
            (some state_fips) none net
        else
          AcsLoader.fetch_vars year
            (AcsLoader.discover_all_vars year groups kv net).1 "county"
            (some state_fips) county_fips net) with
      | error e =>
        rw [hfe] at h
        cases h
      | ok rown =>
        obtain ⟨row, n2⟩ := rown
        rw [hfe] at h
        injection h with h2
        simp only [Prod.mk.injEq] at h2
        obtain ⟨h3, _, h5, _⟩ := h2
        subst h3
        subst h5
        refine ⟨DuckWriter.kvLookup_kvSet_self _ _ _, ?_⟩
        simp only [AcsLoader.fetch_or_cache]
        rw [show AcsLoader._kv_load_json
            (AcsLoader._kv_save_json
              (AcsLoader.discover_all_vars year groups kv net).2.1
              (AcsLoader._row_cache_key year geo_kind groups state_fips
                county_fips)
              (.strMap (AcsLoader.orderedOf row)))
            (AcsLoader._row_cache_key year geo_kind groups state_fips
              county_fips) =
            some (.strMap (AcsLoader.orderedOf row)) from
          DuckWriter.kvLookup_kvSet_self _ _ _]

/-- C1 witness: a first call on an empty cache misses, performs 2
round-trips (group metadata + one data batch) and caches the sorted row;
repeating it is then a hit with 0 round-trips returning that same row. -/
theorem fetch_or_cache_idempotent_witness :
    AcsLoader._kv_load_json
        [("groupvars:2023:DP02", AcsLoader.JVal.strList ["DP02_0001E"]),
         ("row:2023:state:06:DP02", AcsLoader.JVal.strMap
           [("DP02_0001E", "10"), ("NAME", "California"), ("state", "06")])]
        (AcsLoader._row_cache_key "2023" "state" ["DP02"] "06" none) =
      some (AcsLoader.JVal.strMap
        [("DP02_0001E", "10"), ("NAME", "California"), ("state", "06")]) ∧
    AcsLoader.fetch_or_cache "2023" "state" ["DP02"] "06" none
        [("groupvars:2023:DP02", AcsLoader.JVal.strList ["DP02_0001E"]),
         ("row:2023:state:06:DP02", AcsLoader.JVal.strMap
           [("DP02_0001E", "10"), ("NAME", "California"), ("state", "06")])]
        (AcsLoader.NetData.mk (fun _ _ => ["DP02_0001E"])
          (fun _ _ _ _ _ => [["NAME", "DP02_0001E", "state"],
                             ["California", "10", "06"]])) =
      .ok (AcsLoader.JVal.strMap
          [("DP02_0001E", "10"), ("NAME", "California"), ("state", "06")],
        true,
        [("groupvars:2023:DP02", AcsLoader.JVal.strList ["DP02_0001E"]),
         ("row:2023:state:06:DP02", AcsLoader.JVal.strMap
           [("DP02_0001E", "10"), ("NAME", "California"), ("state", "06")])],
        0) :=
  (fetch_or_cache_idempotent "2023" "state" ["DP02"] "06" none []
      (AcsLoader.NetData.mk (fun _ _ => ["DP02_0001E"])
        (fun _ _ _ _ _ => [["NAME", "DP02_0001E", "state"],
                           ["California", "10", "06"]]))).2
    (AcsLoader.JVal.strMap
      [("DP02_0001E", "10"), ("NAME", "California"), ("state", "06")])
    false
    [("groupvars:2023:DP02", AcsLoader.JVal.strList ["DP02_0001E"]),
     ("row:2023:state:06:DP02", AcsLoader.JVal.strMap
       [("DP02_0001E", "10"), ("NAME", "California"), ("state", "06")])]
    2 (by decide)
